import Mathlib

/-!
# Verification of the codebase-QA indexing and retrieval core

Shallow embedding of the core of `codebase-qa-tool`:
chunking (`vectorStore.service.js`, `chunkContent` / `createFileSummary`),
the provider abstraction (`aiProvider.service.js`), the in-memory vector
store (`indexProject`, `cosineSimilarity`, `searchCode`), and the
question-answering orchestration (`qa.service.js`).

JavaScript floating-point numbers are modelled as real numbers; the
exactly-representable accumulation steps of the offline embedder are kept
in `ℚ` so that branch tests stay decidable.  JavaScript strings are
modelled as Lean `String`s / `List Char`; the string splitting helpers are
written by structural recursion so that concrete instances reduce by
`decide`.
-/

namespace CodeQA

/-! ## String helpers (models of the JS string operations used) -/

/-- Model of JS `s.split(sep)` for a single-character separator, on the
character list.  `split` of the empty string is `[[]]` (one empty field),
exactly as in JS where `"".split('\n')` is `[""]`. -/
def splitOnChar (sep : Char) : List Char → List (List Char)
  | [] => [[]]
  | c :: cs =>
    match splitOnChar sep cs with
    | [] => [[]]
    | g :: gs => if c = sep then [] :: g :: gs else (c :: g) :: gs

/-- Model of JS `parts.join('\n')`: interleave a newline between groups. -/
def joinNl : List (List Char) → List Char
  | [] => []
  | [l] => l
  | l :: ls => l ++ '\n' :: joinNl ls

/-- Model of the JS test `s.trim().length > 0`: a string is non-blank iff
it contains a non-whitespace character (trimming removes whitespace from
both ends, so the trimmed length is positive exactly when some character
is not whitespace). -/
def hasContent (cs : List Char) : Bool :=
  cs.any (fun c => !c.isWhitespace)

/-! ## Data model -/

/-- A detected code structure annotation (`parser.service.js`). -/
structure CodeStructure where
  type : String
  name : String
  line : Nat
deriving Repr, DecidableEq

/-- A parsed source file as produced by the parser service. -/
structure ParsedFile where
  path : String
  fileName : String
  language : String
  folder : String
  content : String
  lineCount : Nat
  structures : List CodeStructure
deriving Repr, DecidableEq

/-- A chunk produced by `chunkContent`.  The JS chunk objects for windows
do not carry an `isSummary` property (reading it yields `undefined`,
which is falsy), modelled by the default `false`. -/
structure Chunk where
  content : String
  startLine : Nat
  endLine : Nat
  path : String
  fileName : String
  language : String
  folder : String
  isSummary : Bool := false
deriving Repr, DecidableEq

/-! ## Chunker (`chunkContent`, `createFileSummary`) -/

/-- The lines of a file, as in JS `file.content.split('\n')`. -/
def fileLines (content : String) : List (List Char) :=
  splitOnChar '\n' content.toList

/-- `chunkSize = 50` lines per chunk in the source. -/
def chunkSize : Nat := 50

/-- `overlap = 10` lines of overlap in the source, so the loop advances by
`chunkSize - overlap = 40` lines per iteration. -/
def overlap : Nat := 10

/-- The window start offsets visited by the JS loop
`for (let i = 0; i < lines.length; i += chunkSize - overlap)`:
exactly the multiples of 40 below `len`, in increasing order. -/
def windowStarts (len : Nat) : List Nat :=
  (List.range len).filter (fun i => i % (chunkSize - overlap) = 0)

/-- The joined text of the window starting at line offset `i`
(`lines.slice(i, i + chunkSize).join('\n')`). -/
def windowText (lines : List (List Char)) (i : Nat) : List Char :=
  joinNl ((lines.drop i).take chunkSize)

/-- The chunk record pushed for the window starting at offset `i`. -/
def mkWindowChunk (file : ParsedFile) (lines : List (List Char)) (i : Nat) : Chunk :=
  { content := String.mk (windowText lines i)
    startLine := i + 1
    endLine := min (i + chunkSize) lines.length
    path := file.path
    fileName := file.fileName
    language := file.language
    folder := file.folder }

/-- Model of `createFileSummary`: path, language, the structure list when
non-empty, and the first 20 lines of the file as a preview. -/
def createFileSummary (file : ParsedFile) : String :=
  let base := "File: " ++ file.path ++ "\nLanguage: " ++ file.language ++ "\n"
  let structs :=
    if file.structures.length > 0 then
      "\nCode structures:\n" ++
        file.structures.foldl
          (fun acc s =>
            acc ++ "- " ++ s.type ++ ": " ++ s.name ++ " (line " ++ toString s.line ++ ")\n")
          ""
    else ""
  let firstLines := String.mk (joinNl ((fileLines file.content).take 20))
  base ++ structs ++ "\nContent preview:\n" ++ firstLines

/-- The summary chunk `unshift`ed in front of the windowed chunks. -/
def summaryChunk (file : ParsedFile) (lines : List (List Char)) : Chunk :=
  { content := createFileSummary file
    startLine := 1
    endLine := lines.length
    path := file.path
    fileName := file.fileName
    language := file.language
    folder := file.folder
    isSummary := true }

/-- Model of `chunkContent`: one windowed chunk per 40-aligned offset
below the line count whose joined text is non-blank, preceded by the
summary chunk. -/
def chunkContent (file : ParsedFile) : List Chunk :=
  let lines := fileLines file.content
  summaryChunk file lines ::
    (windowStarts lines.length).filterMap
      (fun i =>
        if hasContent (windowText lines i) then some (mkWindowChunk file lines i)
        else none)

/-- A 3-line file in which every line is non-blank. -/
def exFile3 : ParsedFile :=
  { path := "a.js", fileName := "a.js", language := "javascript", folder := ""
    content := "aaa\nbbb\nccc", lineCount := 3, structures := [] }

/-- An 11-line file in which every line is non-blank. -/
def cexFile11 : ParsedFile :=
  { path := "a.js", fileName := "a.js", language := "javascript", folder := ""
    content := "a\nb\nc\nd\ne\nf\ng\nh\ni\nj\nk", lineCount := 11, structures := [] }

/-- A 45-line file in which every line is non-blank. -/
def cexFile45 : ParsedFile :=
  { path := "b.js", fileName := "b.js", language := "javascript", folder := ""
    content := String.mk (joinNl (List.replicate 45 ['x']))
    lineCount := 45, structures := [] }

/-! ## Offline deterministic embedder (`createSimpleEmbedding`, `simpleHash`) -/

/-- JS `\w` without the unicode flag: `[A-Za-z0-9_]`. -/
def isWordChar (c : Char) : Bool := c.isAlphanum || c = '_'

/-- One character of JS `.replace(/[^\w\s]/g, ' ')`: characters that are
neither word characters nor whitespace become a space. -/
def cleanChar (c : Char) : Char :=
  if isWordChar c || c.isWhitespace then c else ' '

/-- Split at every character satisfying `p`, keeping empty fields, so a
run of separators produces empty fields between them. -/
def splitOnPred (p : Char → Bool) : List Char → List (List Char)
  | [] => [[]]
  | c :: cs =>
    match splitOnPred p cs with
    | [] => [[]]
    | g :: gs => if p c then [] :: g :: gs else (c :: g) :: gs

/-- The token list of `createSimpleEmbedding`:
`text.toLowerCase().replace(/[^\w\s]/g,' ').split(/\s+/).filter(w => w.length > 2)`.
JS `split(/\s+/)` collapses whitespace runs but may keep a leading empty
field; modelling the split as single-character splitting with empty fields
is equivalent here because every empty field is removed by the
`length > 2` filter before positions (`idx`) are assigned. -/
def tokenize (text : String) : List (List Char) :=
  (splitOnPred Char.isWhitespace ((text.toList.map Char.toLower).map cleanChar)).filter
    (fun w => w.length > 2)

/-- JS `ToInt32`: reduce an integer to the range `[-2^31, 2^31)`. -/
def toInt32 (n : ℤ) : ℤ := (n + 2 ^ 31) % 2 ^ 32 - 2 ^ 31

/-- One step of `simpleHash`: `hash = ((hash << 5) - hash) + charCode`
followed by `hash = hash & hash` (a `ToInt32` coercion).  `hash << 5` is
itself a 32-bit operation, hence the inner `toInt32`. -/
def simpleHashStep (hash : ℤ) (c : Char) : ℤ :=
  toInt32 (toInt32 (hash * 32) - hash + c.toNat)

/-- Model of `simpleHash` (tokens are ASCII after cleaning, so
`charCodeAt` agrees with `Char.toNat`). -/
def simpleHash (word : List Char) : ℤ := word.foldl simpleHashStep 0

/-- Embedding dimensionality (384, to match common models). -/
def embeddingDim : Nat := 384

/-- The position weight `1 / (1 + idx * 0.1)`, exactly in `ℚ`. -/
def positionWeight (idx : Nat) : ℚ := 1 / (1 + (idx : ℚ) * (1 / 10))

/-- Accumulate the contribution of one token into its hash bucket:
`embedding[Math.abs(hash) % 384] += 1 / (1 + idx * 0.1)`. -/
def accumulateToken (acc : List ℚ) (iw : Nat × List Char) : List ℚ :=
  let position := (simpleHash iw.2).natAbs % embeddingDim
  acc.set position (acc.getD position 0 + positionWeight iw.1)

/-- The un-normalized hash-bucketed bag-of-words vector. -/
def rawEmbedding (text : String) : List ℚ :=
  (tokenize text).enum.foldl accumulateToken (List.replicate embeddingDim 0)

/-- Sum of squares of a vector (`normA` / `magnitude²` in the source). -/
def sumSq {α : Type} [Add α] [Zero α] [Mul α] (l : List α) : α :=
  (l.map (fun x => x * x)).sum

/-- Model of `createSimpleEmbedding`: accumulate, then L2-normalize when
the magnitude is positive.  The JS guard `magnitude > 0` (with
`magnitude = sqrt(Σ v²)`) is equivalent to `Σ v² > 0`, which keeps the
branch decidable. -/
noncomputable def createSimpleEmbedding (text : String) : List ℝ :=
  let embedding := rawEmbedding text
  if 0 < sumSq embedding then
    embedding.map (fun v => (Rat.cast v : ℝ) / Real.sqrt (Rat.cast (sumSq embedding)))
  else
    embedding.map (fun v => (Rat.cast v : ℝ))

/-! ## Provider abstraction (`aiProvider.service.js`)

Network interactions are modelled by a `NetResponse` environment value:
what the remote endpoint would reply for the one call the operation makes
(`.ok v` a successful payload, `.fail msg` any network failure). -/

/-- The reply of the environment to a network call. -/
inductive NetResponse (α : Type) where
  | ok (v : α)
  | fail (msg : String)
deriving Repr

/-- The four recognized provider keys (`AI_PROVIDERS`). -/
def AI_PROVIDERS : List String := ["openai", "ollama", "groq", "demo"]

/-- Model of `createOpenAIEmbedding`: a network failure is logged and
then **rethrown** (`throw error`).  The request sends
`text.slice(0, 8000)`, which only affects the remote payload. -/
def createOpenAIEmbedding (net : NetResponse (List ℝ)) : Except String (List ℝ) :=
  match net with
  | .ok v => .ok v
  | .fail msg => .error msg

/-- Model of `createOllamaEmbedding`: a network failure is logged and the
call falls back to `createSimpleEmbedding(text)` (the full text, not the
truncated slice). -/
noncomputable def createOllamaEmbedding (text : String) (net : NetResponse (List ℝ)) :
    Except String (List ℝ) :=
  match net with
  | .ok v => .ok v
  | .fail _ => .ok (createSimpleEmbedding text)

/-- Model of the provider switch in `createEmbedding`: `openai` and `ollama`
call their network implementations, `groq` and `demo` (and the `default`
arm, for any unrecognized key) use the offline scheme directly. -/
noncomputable def createEmbedding (provider : String) (net : NetResponse (List ℝ))
    (text : String) : Except String (List ℝ) :=
  if provider = "openai" then createOpenAIEmbedding net
  else if provider = "ollama" then createOllamaEmbedding text net
  else if provider = "groq" then .ok (createSimpleEmbedding text)
  else if provider = "demo" then .ok (createSimpleEmbedding text)
  else .ok (createSimpleEmbedding text)

/-- Case-insensitive prefix test on character lists. -/
def startsWithCI (pat cs : List Char) : Bool :=
  ((cs.take pat.length).map Char.toLower) = pat

/-- Find the first case-insensitive occurrence of `pat` and return what
follows it. -/
def findAfterCI (pat : List Char) : List Char → Option (List Char)
  | [] => none
  | c :: cs =>
    if startsWithCI pat (c :: cs) then some ((c :: cs).drop pat.length)
    else findAfterCI pat cs

/-- Model of `userPrompt.match(/Question:\s*(.+?)(?:\n|$)/i)`: after the
first case-insensitive `Question:`, skip whitespace and capture up to the
next newline; an empty capture means no match (the regex requires at
least one character), in which case the source falls back to
the fixed text `your question`. -/
def extractQuestion (userPrompt : String) : String :=
  match findAfterCI "question:".toList userPrompt.toList with
  | none => "your question"
  | some rest =>
    let captured := (rest.dropWhile Char.isWhitespace).takeWhile (fun c => c ≠ '\n')
    if captured.isEmpty then "your question" else String.mk captured

/-- Model of `userPrompt.matchAll(/File:\s*([^\n]+)/g)`: every occurrence
of `File:` followed by optional whitespace and a non-empty capture up to
the next newline; scanning resumes after each match. -/
def extractFilesAux : List Char → List (List Char)
  | [] => []
  | c :: cs =>
    if (c :: cs).take 5 = "File:".toList then
      let afterWs := ((c :: cs).drop 5).dropWhile Char.isWhitespace
      let captured := afterWs.takeWhile (fun ch => ch ≠ '\n')
      if captured.isEmpty then extractFilesAux cs
      else captured :: extractFilesAux (afterWs.drop captured.length)
    else extractFilesAux cs
termination_by cs => cs.length
decreasing_by
  · simp only [List.length_cons]; omega
  · have h1 : (((c :: cs).drop 5).dropWhile Char.isWhitespace).length ≤
        ((c :: cs).drop 5).length := (List.dropWhile_sublist _).length_le
    have h2 : ((c :: cs).drop 5).length = (c :: cs).length - 5 :=
      List.length_drop _ _
    have h4 : ((((c :: cs).drop 5).dropWhile Char.isWhitespace).drop
          (((c :: cs).drop 5).dropWhile Char.isWhitespace |>.takeWhile
            (fun ch => ch ≠ '\n')).length).length =
        (((c :: cs).drop 5).dropWhile Char.isWhitespace).length -
          (((c :: cs).drop 5).dropWhile Char.isWhitespace |>.takeWhile
            (fun ch => ch ≠ '\n')).length :=
      List.length_drop _ _
    simp only [List.length_cons] at *
    omega
  · simp only [List.length_cons]; omega

/-- The three file references listed by the demo completion
(`Array.from(matchAll).map(m => m[1]).slice(0, 3)`). -/
def extractFiles (userPrompt : String) : List String :=
  ((extractFilesAux userPrompt.toList).take 3).map String.mk

/-- Model of `generateDemoCompletion`: the deterministic template reply,
echoing the extracted question and up to three referenced files. -/
def generateDemoCompletion (userPrompt : String) : String :=
  let question := extractQuestion userPrompt
  let files := extractFiles userPrompt
  let filesSection :=
    if files.length > 0 then
      "### Relevant Files Found:\n" ++
        files.foldl (fun acc file => acc ++ "- `" ++ file ++ "`\n") "" ++ "\n"
    else ""
  "## Demo Mode Response\n\n" ++
  "I analyzed your codebase to answer: \"" ++ question ++ "\"\n\n" ++
  filesSection ++
  "### Analysis:\n" ++
  "In **demo mode**, I\x27m providing a simulated response. " ++
  "The semantic search found relevant code sections based on keyword matching.\n\n" ++
  "To get AI-powered answers, configure one of these providers:\n\n" ++
  "1. **Ollama (Free, Local)**\n" ++
  "   - Install: `brew install ollama` or download from ollama.ai\n" ++
  "   - Run: `ollama serve` then `ollama pull llama3.2`\n" ++
  "   - Set: `AI_PROVIDER=ollama`\n\n" ++
  "2. **Groq (Free Tier)**\n" ++
  "   - Get API key from console.groq.com\n" ++
  "   - Set: `AI_PROVIDER=groq` and `GROQ_API_KEY=your-key`\n\n" ++
  "3. **OpenAI**\n" ++
  "   - Set: `AI_PROVIDER=openai` and `OPENAI_API_KEY=your-key`\n"

/-- The error `generateOllamaCompletion` throws on any network failure. -/
def ollamaCompletionError : String := "Ollama is not running. Start it with: ollama serve"

/-- Model of the provider switch in `generateCompletion`: `openai` and `groq`
rethrow network failures, `ollama` replaces them with a fixed error, and
`demo` (and the `default` arm) returns the deterministic template. -/
def generateCompletion (provider : String) (net : NetResponse String)
    (systemPrompt userPrompt : String) : Except String String :=
  if provider = "openai" then
    match net with | .ok v => .ok v | .fail msg => .error msg
  else if provider = "ollama" then
    match net with | .ok v => .ok v | .fail _ => .error ollamaCompletionError
  else if provider = "groq" then
    match net with | .ok v => .ok v | .fail msg => .error msg
  else .ok (generateDemoCompletion userPrompt)

/-- The display names from `providerConfigs`; `none` for an unrecognized
key (in JS, reading `.name` off a missing config yields `undefined` when
it does not crash). -/
def providerName (provider : String) : Option String :=
  if provider = "openai" then some "OpenAI"
  else if provider = "ollama" then some "Ollama (Local)"
  else if provider = "groq" then some "Groq (Free Tier)"
  else if provider = "demo" then some "Demo Mode"
  else none

/-! ## Vector store (`indexProject`, `cosineSimilarity`, `searchCode`) -/

/-- Model of `cosineSimilarity`.  Lists cannot be `null`, so the JS
`!vecA || !vecB` guard has no analogue; the mismatched-length guard and
the zero-denominator guard both return 0.  The JS loop accumulates
`dotProduct = Σ aᵢ·bᵢ`, `normA = Σ aᵢ²`, `normB = Σ bᵢ²` and the
`denominator` is `sqrt(normA) * sqrt(normB)`, written out inline here. -/
noncomputable def cosineSimilarity (vecA vecB : List ℝ) : ℝ :=
  if vecA.length ≠ vecB.length then 0
  else if 0 < Real.sqrt (sumSq vecA) * Real.sqrt (sumSq vecB) then
    (List.zipWith (· * ·) vecA vecB).sum /
      (Real.sqrt (sumSq vecA) * Real.sqrt (sumSq vecB))
  else 0

/-- A chunk together with its embedding, as stored in `store.vectors`
(the JS spread `{...chunk, embedding}` is modelled by nesting). -/
structure StoredVector where
  chunk : Chunk
  embedding : List ℝ

/-- A search result: the chunk fields plus the similarity score.  The
type deliberately has no embedding field — `searchCode` strips the
embedding (`({embedding, ...rest}) => rest`) before returning. -/
structure SearchResult where
  chunk : Chunk
  similarity : ℝ

/-- The options object of `searchCode`; `none` models an absent (or
falsy) property. -/
structure SearchOptions where
  language : Option String := none
  folder : Option String := none
  limit : Option Nat := none

/-- `options.limit || 10`: an absent limit or the falsy limit `0` is
replaced by the default 10. -/
def effectiveLimit : Option Nat → Nat
  | none => 10
  | some 0 => 10
  | some (n + 1) => n + 1

/-- Scoring and filtering phase of `searchCode`: score every stored
vector against the query embedding, then apply the optional exact
language filter and the folder-prefix filter. -/
noncomputable def scoredFiltered (vectors : List StoredVector) (queryEmbedding : List ℝ)
    (options : SearchOptions) : List (StoredVector × ℝ) :=
  let results := vectors.map (fun chunk => (chunk, cosineSimilarity queryEmbedding chunk.embedding))
  let results :=
    match options.language with
    | some lang => results.filter (fun r => r.1.chunk.language == lang)
    | none => results
  match options.folder with
  | some folder => results.filter (fun r => r.1.chunk.folder.startsWith folder)
  | none => results

/-- The ordering realized by the JS stable sort
`results.sort((a, b) => b.similarity - a.similarity)` on index-tagged
entries: strictly greater similarity first, ties in original (insertion)
order.  On distinct tags this is a linear order, so the stable-sorted
list is the unique `tagRel`-sorted permutation. -/
def tagRel (x y : Nat × (StoredVector × ℝ)) : Prop :=
  y.2.2 < x.2.2 ∨ (x.2.2 = y.2.2 ∧ x.1 ≤ y.1)

noncomputable instance : DecidableRel tagRel := Classical.decRel _

/-- The sorted, index-tagged candidate list. -/
noncomputable def rankedTagged (vectors : List StoredVector) (queryEmbedding : List ℝ)
    (options : SearchOptions) : List (Nat × (StoredVector × ℝ)) :=
  List.insertionSort tagRel (scoredFiltered vectors queryEmbedding options).enum

/-- Sort / truncate / strip phase of `searchCode`:
`results.sort(...)` then `.slice(0, options.limit || 10)` then
`.map(({embedding, ...rest}) => rest)`. -/
noncomputable def searchVectors (vectors : List StoredVector) (queryEmbedding : List ℝ)
    (options : SearchOptions) : List SearchResult :=
  ((rankedTagged vectors queryEmbedding options).take (effectiveLimit options.limit)).map
    (fun t => { chunk := t.2.1.chunk, similarity := t.2.2 })

/-- Per-project summary statistics. -/
structure IndexStats where
  totalFiles : Nat
  totalChunks : Nat
  languages : List String

/-- The entry of one project in the in-memory `vectorStores` map. -/
structure Store where
  vectors : List StoredVector
  files : List ParsedFile
  indexedAt : String := ""
  stats : IndexStats

/-- The `vectorStores` map, as an association list with unique keys. -/
abbrev VectorStores := List (String × Store)

/-- `vectorStores.get(projectId)`. -/
def lookupStore (stores : VectorStores) (projectId : String) : Option Store :=
  (stores.find? (fun e => e.1 == projectId)).map (·.2)

/-- `deleteProject`: `vectorStores.delete(projectId)`. -/
def deleteProject (stores : VectorStores) (projectId : String) : VectorStores :=
  stores.filter (fun e => e.1 != projectId)

/-- `getProjectFiles`: the file list, or `none` for a missing project. -/
def getProjectFiles (stores : VectorStores) (projectId : String) : Option (List ParsedFile) :=
  (lookupStore stores projectId).map (·.files)

/-- `[...new Set(xs)]`: deduplication keeping first occurrences. -/
def dedupFirst (l : List String) : List String :=
  l.foldl (fun acc s => if s ∈ acc then acc else acc ++ [s]) []

/-- The `ProjectNotFound` error message thrown by `searchCode`. -/
def projectNotFoundMsg (projectId : String) : String :=
  "Project " ++ projectId ++ " not found. Please upload and index a codebase first."

/-- The `FileNotFound` error message thrown by `explainFile`. -/
def fileNotFoundMsg (filePath : String) : String :=
  "File " ++ filePath ++ " not found in project"

/-- The accumulator of the chunk loop of `indexProject`.  `warnings` holds the
per-chunk warnings actually written to the log; `embedCalls` is the trace
of texts passed to `createEmbedding`, in call order. -/
structure IndexAcc where
  vectors : List StoredVector := []
  processedChunks : Nat := 0
  errors : Nat := 0
  warnings : List String := []
  embedCalls : List String := []

/-- The per-chunk warning text. -/
def chunkWarnMsg (path msg : String) : String :=
  "Warning: Could not embed chunk from " ++ path ++ ": " ++ msg

/-- One iteration of the inner loop of `indexProject`: embed the chunk; on
success push the embedded chunk, on failure count the error and log it
individually only while `errors <= 3`. -/
def indexChunkStep (embed : String → Except String (List ℝ)) (acc : IndexAcc)
    (chunk : Chunk) : IndexAcc :=
  let acc := { acc with embedCalls := acc.embedCalls ++ [chunk.content] }
  match embed chunk.content with
  | .ok embedding =>
    { acc with
      vectors := acc.vectors ++ [{ chunk := chunk, embedding := embedding }]
      processedChunks := acc.processedChunks + 1 }
  | .error msg =>
    { acc with
      errors := acc.errors + 1
      warnings :=
        if acc.errors + 1 ≤ 3 then acc.warnings ++ [chunkWarnMsg chunk.path msg]
        else acc.warnings }

/-- Whether embedding the content of a chunk succeeds under `embed`. -/
def embedOk (embed : String → Except String (List ℝ)) (chunk : Chunk) : Bool :=
  match embed chunk.content with
  | .ok _ => true
  | .error _ => false

/-- What `indexProject` produces: the stored entry, the returned stats,
and the error/log/call traces. -/
structure IndexOutcome where
  store : Store
  stats : IndexStats
  errors : Nat
  warnings : List String
  embedCalls : List String

/-- Model of `indexProject`: chunk every file, embed chunk by chunk
through the supplied `embed` (the `createEmbedding` of the active provider,
any outcome pre-chosen by the environment), absorb per-chunk failures,
then store the accumulated vectors and return the stats. -/
def indexAccOf (files : List ParsedFile) (embed : String → Except String (List ℝ)) :
    IndexAcc :=
  files.foldl (fun acc file => (chunkContent file).foldl (indexChunkStep embed) acc) {}

def indexProject (files : List ParsedFile) (embed : String → Except String (List ℝ)) :
    IndexOutcome :=
  let acc := indexAccOf files embed
  let stats : IndexStats :=
    { totalFiles := files.length
      totalChunks := acc.vectors.length
      languages := dedupFirst (files.map (·.language)) }
  { store := { vectors := acc.vectors, files := files, stats := stats }
    stats := stats
    errors := acc.errors
    warnings := acc.warnings
    embedCalls := acc.embedCalls }

/-- Model of `searchCode`: project lookup first (throwing
`ProjectNotFound` before anything else), then the query embedding via the
active provider, then score/filter/sort/truncate/strip. -/
noncomputable def searchCode (stores : VectorStores) (projectId query : String)
    (options : SearchOptions) (provider : String) (net : NetResponse (List ℝ)) :
    Except String (List SearchResult) :=
  match lookupStore stores projectId with
  | none => .error (projectNotFoundMsg projectId)
  | some store =>
    match createEmbedding provider net query with
    | .error msg => .error msg
    | .ok queryEmbedding => .ok (searchVectors store.vectors queryEmbedding options)

/-! ## QA service (`qa.service.js`) -/

/-- A formatted reference (`formatReferences`). -/
structure Reference where
  file : String
  fileName : String
  startLine : Nat
  endLine : Nat
  language : String
  folder : String
  similarity : ℤ
  preview : String
  isSummary : Bool

/-- JS `Math.round`: round half towards positive infinity. -/
noncomputable def jsRound (x : ℝ) : ℤ := ⌊x + 1 / 2⌋

/-- Model of `formatReferences`: similarity as a rounded percentage, a
5-line preview, `isSummary || false`. -/
noncomputable def formatReferences (chunks : List SearchResult) : List Reference :=
  chunks.map (fun chunk =>
    { file := chunk.chunk.path
      fileName := chunk.chunk.fileName
      startLine := chunk.chunk.startLine
      endLine := chunk.chunk.endLine
      language := chunk.chunk.language
      folder := chunk.chunk.folder
      similarity := jsRound (chunk.similarity * 100)
      preview := String.mk (joinNl ((splitOnChar '\n' chunk.chunk.content.toList).take 5))
      isSummary := chunk.chunk.isSummary })

/-- Model of `buildContext`: ranked-order concatenation of
`--- File: <path> (lines <start>-<end>) ---` blocks. -/
def buildContext (chunks : List SearchResult) : String :=
  chunks.foldl
    (fun context chunk =>
      context ++ "\n--- File: " ++ chunk.chunk.path ++ " (lines " ++
        toString chunk.chunk.startLine ++ "-" ++ toString chunk.chunk.endLine ++ ") ---\n" ++
        chunk.chunk.content ++ "\n")
    ""

/-- The fixed system prompt of `generateAnswer`. -/
def qaSystemPrompt : String :=
  "You are a helpful code assistant analyzing a codebase. Your job is to answer questions about the code accurately and helpfully.\n\nGuidelines:\n- Always reference specific files and line numbers when discussing code\n- Explain code in clear, understandable terms\n- If you\x27re not sure about something, say so\n- Provide code examples when helpful\n- Focus on the most relevant parts of the code for the question\n- If asked about specific functions or features, explain what they do and how they work"

/-- The user prompt of `generateAnswer`, embedding question and context. -/
def qaUserPrompt (question context : String) : String :=
  "Based on the following code context from the codebase, please answer this question:\n\nQuestion: " ++
    question ++ "\n\nCode Context:\n" ++ context ++
    "\n\nPlease provide a clear, detailed answer with specific file and line references where applicable."

/-- Model of `generateAnswer`: call the completion provider; a failure is
wrapped in `Failed to generate answer: <msg>` and rethrown. -/
def generateAnswer (provider : String) (net : NetResponse String)
    (question context : String) : Except String String :=
  match generateCompletion provider net qaSystemPrompt (qaUserPrompt question context) with
  | .ok answer => .ok answer
  | .error msg => .error ("Failed to generate answer: " ++ msg)

/-- The fixed message returned when the search produced no chunks. -/
def noResultsAnswer : String :=
  "I couldn\x27t find any relevant code in the codebase to answer your question. Please make sure the codebase is properly indexed."

/-- The result object of `answerQuestion`.  The JS object of the
no-results branch has no `relevantFiles` and no `provider` property
(reading them yields `undefined`); absence is modelled by `none`. -/
structure QAResult where
  answer : String
  references : List Reference
  confidence : String
  relevantFiles : Option (List String) := none
  provider : Option String := none

/-- The fixed no-results response of `answerQuestion`. -/
def noResultsResult : QAResult :=
  { answer := noResultsAnswer, references := [], confidence := "low" }

/-- Model of `answerQuestion`: search with `limit = 8` (overriding any
caller limit), return the fixed low-confidence response on zero chunks
(no completion call is made: the result does not depend on
`completionNet`), otherwise build context, generate, and assemble the
full response with confidence from the similarity of the top chunk. -/
noncomputable def answerQuestion (stores : VectorStores) (projectId question : String)
    (options : SearchOptions) (provider : String) (embedNet : NetResponse (List ℝ))
    (completionNet : NetResponse String) : Except String QAResult :=
  match searchCode stores projectId question { options with limit := some 8 } provider embedNet with
  | .error msg => .error msg
  | .ok relevantChunks =>
    match relevantChunks with
    | [] => .ok noResultsResult
    | top :: _ =>
      let context := buildContext relevantChunks
      match generateAnswer provider completionNet question context with
      | .error msg => .error msg
      | .ok answer =>
        .ok { answer := answer
              references := formatReferences relevantChunks
              confidence :=
                if top.similarity > 0.8 then "high"
                else if top.similarity > 0.6 then "medium"
                else "low"
              relevantFiles := some (dedupFirst (relevantChunks.map (·.chunk.path)))
              provider := providerName provider }

/-- The file metadata returned by `explainFile`. -/
structure ExplainFileMeta where
  path : String
  fileName : String
  language : String
  lineCount : Nat
  structures : List CodeStructure

/-- The result object of `explainFile`. -/
structure ExplainResult where
  explanation : String
  file : ExplainFileMeta
  provider : Option String

/-- The fixed system prompt of `explainFile`. -/
def explainSystemPrompt : String :=
  "You are a code documentation expert. Analyze the given code file and provide a clear, structured explanation."

/-- The user prompt of `explainFile`, embedding the file content. -/
def explainUserPrompt (file : ParsedFile) : String :=
  "Please analyze and explain this " ++ file.language ++ " file:\n\nFile: " ++ file.path ++
    "\n\n```" ++ file.language ++ "\n" ++ file.content ++
    "\n```\n\nProvide:\n1. A brief overview of what this file does\n2. Key functions/classes and their purposes\n3. How this file likely fits into the larger application\n4. Any notable patterns or best practices used"

/-- Model of `explainFile`: look the file up first (`FileNotFound` is
thrown before any provider call — the error does not depend on `net`),
then invoke the completion provider. -/
def explainFile (stores : VectorStores) (projectId filePath : String) (provider : String)
    (net : NetResponse String) : Except String ExplainResult :=
  let files := getProjectFiles stores projectId
  match files.bind (fun fs => fs.find? (fun f => f.path == filePath)) with
  | none => .error (fileNotFoundMsg filePath)
  | some file =>
    match generateCompletion provider net explainSystemPrompt (explainUserPrompt file) with
    | .error msg => .error msg
    | .ok explanation =>
      .ok { explanation := explanation
            file := { path := file.path, fileName := file.fileName, language := file.language
                      lineCount := file.lineCount, structures := file.structures }
            provider := providerName provider }

/-! ## Concrete example inputs used by witnesses and counterexamples -/

/-- A small example chunk. -/
def exChunk : Chunk :=
  { content := "aaa", startLine := 1, endLine := 1, path := "a.js", fileName := "a.js"
    language := "javascript", folder := "" }

/-- A stored vector with the one-dimensional embedding `[1]`. -/
def exStored1 : StoredVector := { chunk := exChunk, embedding := [(1 : ℝ)] }

/-- A stored vector with the one-dimensional embedding `[-1]` — the kind
of vector a remote embedding provider can return (remote embeddings have
negative components). -/
def cexStored : StoredVector := { chunk := exChunk, embedding := [(-1 : ℝ)] }

/-- An options object with no language/folder/limit. -/
def noOptions : SearchOptions := {}

/-- Empty per-project statistics. -/
def emptyStats : IndexStats := { totalFiles := 0, totalChunks := 0, languages := [] }

/-- An indexed project with no vectors and no files. -/
def emptyStore : Store := { vectors := [], files := [], stats := emptyStats }

/-- An indexed project holding one file (`exFile3`) and no vectors. -/
def exStoreWithFile : Store :=
  { vectors := [], files := [exFile3]
    stats := { totalFiles := 1, totalChunks := 0, languages := ["javascript"] } }

/-! ## Theorems -/

/-! ### Chunking (C1) -/

theorem splitOnChar_ne_nil (sep : Char) (cs : List Char) : splitOnChar sep cs ≠ [] := by
  cases cs with
  | nil => simp [splitOnChar]
  | cons c cs =>
    cases h : splitOnChar sep cs with
    | nil => simp [splitOnChar, h]
    | cons g gs => by_cases hc : c = sep <;> simp [splitOnChar, h, hc]

theorem stride_eq : chunkSize - overlap = 40 := rfl

theorem windowStarts_succ (L : Nat) :
    windowStarts (L + 1) = windowStarts L ++ (if L % 40 = 0 then [L] else []) := by
  by_cases h : L % 40 = 0 <;>
    simp [windowStarts, List.range_succ, List.filter_append, stride_eq, h]

theorem length_windowStarts (L : Nat) : (windowStarts L).length = (L + 39) / 40 := by
  induction L with
  | zero => rfl
  | succ n ih =>
    rw [windowStarts_succ]
    by_cases h : n % 40 = 0 <;> simp [h, ih] <;> omega

theorem windowStarts_small : ∀ L, 1 ≤ L → L ≤ 40 → windowStarts L = [0] := by
  intro L
  induction L with
  | zero => intro h; omega
  | succ n ih =>
    intro _ h2
    rcases Nat.eq_zero_or_pos n with hn | hn
    · subst hn; decide
    · rw [windowStarts_succ]
      have hmod : ¬ n % 40 = 0 := by omega
      rw [ih hn (by omega)]
      simp [hmod]

theorem length_filterMap_ite {α β : Type} (l : List α) (p : α → Bool) (g : α → β) :
    (l.filterMap (fun a => if p a then some (g a) else none)).length = (l.filter p).length := by
  induction l with
  | nil => rfl
  | cons a l ih => by_cases h : p a <;> simp [List.filterMap_cons, List.filter_cons, h, ih]

theorem mem_filterMap_ite {α β : Type} {l : List α} {p : α → Bool} {g : α → β} {b : β}
    (hb : b ∈ l.filterMap (fun a => if p a then some (g a) else none)) :
    ∃ a ∈ l, p a ∧ b = g a := by
  rcases List.mem_filterMap.mp hb with ⟨a, ha, hfa⟩
  by_cases h : p a
  · exact ⟨a, ha, h, by simpa [h] using hfa.symm⟩
  · simp [h] at hfa

/-- C1 (corrected): for a file with `L ≥ 1` lines, `chunkContent` yields
exactly one summary chunk plus one windowed chunk per 40-aligned window
start below `L` whose joined text is non-blank; when every window is
non-blank that is `⌈L/40⌉ = (L+39)/40` windowed chunks (not
`⌈max(L−10,0)/40⌉+1` as claimed).  A file of at most 40 lines (not "fewer
than 50", as claimed) whose windows are non-blank yields exactly one
non-summary chunk spanning lines `1..L`, and at least 2 chunks total. -/
theorem c1_chunking_counts (file : ParsedFile) :
    1 ≤ (fileLines file.content).length ∧
    (chunkContent file).length = 1 +
      ((windowStarts (fileLines file.content).length).filter
        (fun i => hasContent (windowText (fileLines file.content) i))).length ∧
    (chunkContent file).countP (fun c => c.isSummary) = 1 ∧
    ((∀ i ∈ windowStarts (fileLines file.content).length,
        hasContent (windowText (fileLines file.content) i)) →
      (chunkContent file).length = 1 + ((fileLines file.content).length + 39) / 40 ∧
      2 ≤ (chunkContent file).length ∧
      ((fileLines file.content).length ≤ 40 →
        chunkContent file =
          [summaryChunk file (fileLines file.content),
           mkWindowChunk file (fileLines file.content) 0] ∧
        (mkWindowChunk file (fileLines file.content) 0).startLine = 1 ∧
        (mkWindowChunk file (fileLines file.content) 0).endLine =
          (fileLines file.content).length ∧
        (mkWindowChunk file (fileLines file.content) 0).isSummary = false)) := by
  have hL : 1 ≤ (fileLines file.content).length :=
    List.length_pos.mpr (splitOnChar_ne_nil '\n' file.content.toList)
  refine ⟨hL, ?_, ?_, ?_⟩
  · simp only [chunkContent, List.length_cons, length_filterMap_ite]
    omega
  · simp only [chunkContent, List.countP_cons, summaryChunk]
    have h0 : (List.countP (fun c => c.isSummary)
        ((windowStarts (fileLines file.content).length).filterMap
          (fun i => if hasContent (windowText (fileLines file.content) i)
            then some (mkWindowChunk file (fileLines file.content) i) else none))) = 0 := by
      rw [List.countP_eq_zero]
      intro c hc
      rcases mem_filterMap_ite hc with ⟨i, _, _, rfl⟩
      simp [mkWindowChunk]
    simp [h0]
  · intro hall
    have hfilter : ((windowStarts (fileLines file.content).length).filter
        (fun i => hasContent (windowText (fileLines file.content) i))) =
        windowStarts (fileLines file.content).length :=
      List.filter_eq_self.mpr hall
    have hlen : (chunkContent file).length =
        1 + ((fileLines file.content).length + 39) / 40 := by
      simp only [chunkContent, List.length_cons, length_filterMap_ite, hfilter,
        length_windowStarts]
      omega
    refine ⟨hlen, by omega, ?_⟩
    intro h40
    have hws : windowStarts (fileLines file.content).length = [0] :=
      windowStarts_small _ hL h40
    have hemit : hasContent (windowText (fileLines file.content) 0) :=
      hall 0 (by rw [hws]; simp)
    constructor
    · simp [chunkContent, hws, hemit]
    · refine ⟨rfl, ?_, rfl⟩
      simp only [mkWindowChunk, chunkSize]
      omega

/-- C1 counterexample: the 11-line file `cexFile11` (every line
non-blank) yields 2 chunks in total, while the claimed formula
`1 + (⌈max(L−10,0)/40⌉ + 1)` predicts 3; and the 45-line file
`cexFile45` — shorter than one 50-line window — yields 2 non-summary
chunks, not 1. -/
theorem c1_counterexample :
    (chunkContent cexFile11).length = 2 ∧
    1 + ((max ((fileLines cexFile11.content).length - 10) 0 + 39) / 40 + 1) = 3 ∧
    (chunkContent cexFile45).countP (fun c => !c.isSummary) = 2 := by
  refine ⟨by decide, by decide, by decide⟩

/-- C1 witness: the 3-line file `exFile3` has all windows non-blank and
realizes the amended counts. -/
theorem c1_witness :
    (∀ i ∈ windowStarts (fileLines exFile3.content).length,
      hasContent (windowText (fileLines exFile3.content) i)) ∧
    (chunkContent exFile3).length = 1 + ((fileLines exFile3.content).length + 39) / 40 ∧
    2 ≤ (chunkContent exFile3).length :=
  ⟨by decide, ((c1_chunking_counts exFile3).2.2.2 (by decide)).1,
    ((c1_chunking_counts exFile3).2.2.2 (by decide)).2.1⟩

/-! ### Cosine similarity (C7) -/

theorem sumSq_cons {α : Type} [LinearOrderedField α] (x : α) (l : List α) :
    sumSq (x :: l) = x * x + sumSq l := by
  simp [sumSq]

theorem sumSq_nonneg {α : Type} [LinearOrderedField α] (l : List α) : 0 ≤ sumSq l := by
  induction l with
  | nil => simp [sumSq]
  | cons x l ih => rw [sumSq_cons]; exact add_nonneg (mul_self_nonneg x) ih

theorem sumSq_eq_zero {α : Type} [LinearOrderedField α] {l : List α} (h : sumSq l = 0) :
    ∀ x ∈ l, x = 0 := by
  induction l with
  | nil => simp
  | cons x l ih =>
    rw [sumSq_cons] at h
    have hx : x * x = 0 ∧ sumSq l = 0 := by
      constructor <;> nlinarith [mul_self_nonneg x, sumSq_nonneg l]
    intro y hy
    rcases List.mem_cons.mp hy with rfl | hy
    · exact mul_self_eq_zero.mp hx.1
    · exact ih hx.2 y hy

theorem zipWith_mul_self (v : List ℝ) :
    List.zipWith (· * ·) v v = v.map (fun x => x * x) := by
  induction v with
  | nil => rfl
  | cons x v ih => simp [ih]

theorem dot_comm (a b : List ℝ) :
    List.zipWith (· * ·) a b = List.zipWith (· * ·) b a :=
  List.zipWith_comm_of_comm _ mul_comm a b

theorem cauchy_schwarz_step (x y D A B : ℝ) (hD : D ^ 2 ≤ A * B) (hA : 0 ≤ A)
    (hB : 0 ≤ B) : (x * y + D) ^ 2 ≤ (x * x + A) * (y * y + B) := by
  rcases eq_or_lt_of_le hA with hA0 | hApos
  · have hD0 : D = 0 := by nlinarith [sq_nonneg D]
    subst hD0
    nlinarith [mul_nonneg hB (sq_nonneg x)]
  · nlinarith [sq_nonneg (D * x - A * y), mul_nonneg (sub_nonneg.2 hD) (sq_nonneg x),
      mul_nonneg (le_of_lt hApos) (sub_nonneg.2 hD), hApos]

theorem list_cauchy_schwarz (a b : List ℝ) :
    ((List.zipWith (· * ·) a b).sum) ^ 2 ≤ sumSq a * sumSq b := by
  induction a generalizing b with
  | nil => simp [sumSq]
  | cons x as ih =>
    cases b with
    | nil => simp [sumSq]
    | cons y bs =>
      simp only [List.zipWith_cons_cons, List.sum_cons, sumSq_cons]
      exact cauchy_schwarz_step x y _ _ _ (ih bs) (sumSq_nonneg as) (sumSq_nonneg bs)

theorem cosineSimilarity_comm (a b : List ℝ) :
    cosineSimilarity a b = cosineSimilarity b a := by
  unfold cosineSimilarity
  by_cases h : a.length = b.length
  · have h1 : ¬ a.length ≠ b.length := by simpa using h
    have h2 : ¬ b.length ≠ a.length := by simpa using h.symm
    rw [if_neg h1, if_neg h2, dot_comm, mul_comm (Real.sqrt (sumSq a))]
  · rw [if_pos h, if_pos (fun hba => h hba.symm)]

theorem cosineSimilarity_self {v : List ℝ} (h : sumSq v ≠ 0) :
    cosineSimilarity v v = 1 := by
  have hpos : 0 < sumSq v := lt_of_le_of_ne (sumSq_nonneg v) (Ne.symm h)
  unfold cosineSimilarity
  rw [if_neg (by simp)]
  have hden : Real.sqrt (sumSq v) * Real.sqrt (sumSq v) = sumSq v :=
    Real.mul_self_sqrt (sumSq_nonneg v)
  have hdot : (List.zipWith (· * ·) v v).sum = sumSq v := by
    rw [zipWith_mul_self]; rfl
  rw [hden, hdot, if_pos hpos]
  exact div_self (ne_of_gt hpos)

theorem cosineSimilarity_length_ne {a b : List ℝ} (h : a.length ≠ b.length) :
    cosineSimilarity a b = 0 := by
  unfold cosineSimilarity
  rw [if_pos h]

theorem cosineSimilarity_degenerate {a b : List ℝ} (h : sumSq a = 0 ∨ sumSq b = 0) :
    cosineSimilarity a b = 0 := by
  unfold cosineSimilarity
  by_cases hl : a.length ≠ b.length
  · rw [if_pos hl]
  · rw [if_neg hl]
    have hden : Real.sqrt (sumSq a) * Real.sqrt (sumSq b) = 0 := by
      rcases h with h | h <;> simp [h]
    simp only [hden]
    rw [if_neg (by simp)]

theorem cosineSimilarity_bounds (a b : List ℝ) :
    -1 ≤ cosineSimilarity a b ∧ cosineSimilarity a b ≤ 1 := by
  unfold cosineSimilarity
  by_cases hl : a.length ≠ b.length
  · rw [if_pos hl]; norm_num
  · rw [if_neg hl]
    by_cases hden : 0 < Real.sqrt (sumSq a) * Real.sqrt (sumSq b)
    · rw [if_pos hden]
      have hsq : (Real.sqrt (sumSq a) * Real.sqrt (sumSq b)) ^ 2 = sumSq a * sumSq b := by
        rw [mul_pow, Real.sq_sqrt (sumSq_nonneg a), Real.sq_sqrt (sumSq_nonneg b)]
      have hCS : ((List.zipWith (· * ·) a b).sum) ^ 2 ≤
          (Real.sqrt (sumSq a) * Real.sqrt (sumSq b)) ^ 2 := by
        rw [hsq]; exact list_cauchy_schwarz a b
      constructor
      · rw [le_div_iff hden]
        nlinarith [hCS, hden]
      · rw [div_le_one hden]
        nlinarith [hCS, hden]
    · rw [if_neg hden]; norm_num

/-- C7 (confirmed): `cosineSimilarity` is symmetric; the self-similarity
of a vector of non-zero magnitude is exactly 1; and mismatched lengths or
a zero-magnitude argument give exactly 0 (the function is total — there
is no error path). -/
theorem c7_cosine_properties :
    (∀ a b : List ℝ, cosineSimilarity a b = cosineSimilarity b a) ∧
    (∀ v : List ℝ, sumSq v ≠ 0 → cosineSimilarity v v = 1) ∧
    (∀ a b : List ℝ, a.length ≠ b.length → cosineSimilarity a b = 0) ∧
    (∀ a b : List ℝ, sumSq a = 0 ∨ sumSq b = 0 → cosineSimilarity a b = 0) :=
  ⟨cosineSimilarity_comm, fun _ h => cosineSimilarity_self h,
    fun _ _ h => cosineSimilarity_length_ne h,
    fun _ _ h => cosineSimilarity_degenerate h⟩

/-- C7 witness: concrete instances — self-similarity of `[1]` is 1,
mismatched lengths give 0, and a zero vector gives 0. -/
theorem c7_witness :
    cosineSimilarity [(1 : ℝ)] [(1 : ℝ)] = 1 ∧
    cosineSimilarity [(1 : ℝ)] [(1 : ℝ), 2] = 0 ∧
    cosineSimilarity [(0 : ℝ)] [(5 : ℝ)] = 0 :=
  ⟨c7_cosine_properties.2.1 [(1 : ℝ)] (by norm_num [sumSq]),
    c7_cosine_properties.2.2.1 [(1 : ℝ)] [(1 : ℝ), 2] (by simp),
    c7_cosine_properties.2.2.2 [(0 : ℝ)] [(5 : ℝ)] (Or.inl (by norm_num [sumSq]))⟩

/-! ### Search (C2, C10) -/

instance : IsTrans (Nat × (StoredVector × ℝ)) tagRel where
  trans := by
    intro a b c hab hbc
    rcases hab with h1 | ⟨h1, h1'⟩ <;> rcases hbc with h2 | ⟨h2, h2'⟩
    · exact Or.inl (lt_trans h2 h1)
    · exact Or.inl (by rw [← h2]; exact h1)
    · exact Or.inl (by rw [h1]; exact h2)
    · exact Or.inr ⟨h1.trans h2, Nat.le_trans h1' h2'⟩

instance : IsTotal (Nat × (StoredVector × ℝ)) tagRel where
  total := by
    intro a b
    rcases lt_trichotomy a.2.2 b.2.2 with h | h | h
    · exact Or.inr (Or.inl h)
    · rcases Nat.le_total a.1 b.1 with hi | hi
      · exact Or.inl (Or.inr ⟨h, hi⟩)
      · exact Or.inr (Or.inr ⟨h.symm, hi⟩)
    · exact Or.inl (Or.inl h)

theorem snd_mem_of_mem_enum {α : Type} {l : List α} {p : ℕ × α} (h : p ∈ l.enum) :
    p.2 ∈ l := by
  have hg : l[p.1]? = some p.2 := List.mem_enum_iff_getElem?.mp h
  exact List.getElem?_mem hg

theorem rankedTagged_sorted (vectors : List StoredVector) (queryEmbedding : List ℝ)
    (options : SearchOptions) :
    List.Pairwise tagRel (rankedTagged vectors queryEmbedding options) :=
  List.sorted_insertionSort tagRel _

theorem rankedTagged_perm (vectors : List StoredVector) (queryEmbedding : List ℝ)
    (options : SearchOptions) :
    (rankedTagged vectors queryEmbedding options).Perm
      (scoredFiltered vectors queryEmbedding options).enum :=
  List.perm_insertionSort tagRel _

theorem searchVectors_length_le (vectors : List StoredVector) (queryEmbedding : List ℝ)
    (options : SearchOptions) :
    (searchVectors vectors queryEmbedding options).length ≤ effectiveLimit options.limit := by
  rw [searchVectors, List.length_map, List.length_take]
  exact min_le_left _ _

theorem searchVectors_sorted (vectors : List StoredVector) (queryEmbedding : List ℝ)
    (options : SearchOptions) :
    List.Pairwise (fun a b : SearchResult => b.similarity ≤ a.similarity)
      (searchVectors vectors queryEmbedding options) := by
  rw [searchVectors, List.pairwise_map]
  have htake : List.Pairwise tagRel
      ((rankedTagged vectors queryEmbedding options).take (effectiveLimit options.limit)) :=
    (rankedTagged_sorted vectors queryEmbedding options).sublist (List.take_sublist _ _)
  exact htake.imp (fun h => by
    rcases h with h | ⟨h, _⟩
    · exact le_of_lt h
    · exact le_of_eq h.symm)

theorem searchVectors_mem_similarity (vectors : List StoredVector) (queryEmbedding : List ℝ)
    (options : SearchOptions) {r : SearchResult}
    (h : r ∈ searchVectors vectors queryEmbedding options) :
    ∃ sv ∈ vectors, r.similarity = cosineSimilarity queryEmbedding sv.embedding := by
  rw [searchVectors] at h
  rcases List.mem_map.mp h with ⟨t, ht, rfl⟩
  have ht1 : t ∈ rankedTagged vectors queryEmbedding options :=
    (List.take_sublist _ _).subset ht
  have ht2 : t ∈ (scoredFiltered vectors queryEmbedding options).enum :=
    (rankedTagged_perm vectors queryEmbedding options).mem_iff.mp ht1
  have ht3 : t.2 ∈ scoredFiltered vectors queryEmbedding options := snd_mem_of_mem_enum ht2
  have ht4 : t.2 ∈ vectors.map
      (fun chunk => (chunk, cosineSimilarity queryEmbedding chunk.embedding)) := by
    rw [scoredFiltered] at ht3
    rcases options with ⟨lang, folder, limit⟩
    cases lang <;> cases folder <;>
      simp only [List.mem_filter] at ht3 <;>
      first
        | exact ht3
        | exact ht3.1
        | exact ht3.1.1
  rcases List.mem_map.mp ht4 with ⟨sv, hsv, heq⟩
  refine ⟨sv, hsv, ?_⟩
  have : t.2.2 = cosineSimilarity queryEmbedding sv.embedding := by rw [← heq]
  exact this

/-- C2 (corrected): for any stored vectors, query embedding and options,
`searchVectors` returns at most `limit` results (default 10 for an absent
or falsy limit), the output is sorted by non-increasing similarity, the
underlying stable sort keeps ties in original insertion order (the
index-tagged sorted list is `tagRel`-pairwise and a permutation of the
tagged candidates), each output record is rebuilt from the chunk and its
score only (the `SearchResult` type has no embedding field — the stored
vector is never returned), and every returned similarity lies in `[-1,
1]` — not `[0, 1]` as claimed: a stored embedding with negative
components yields a negative score (see the counterexample). -/
theorem c2_search_contract (vectors : List StoredVector) (queryEmbedding : List ℝ)
    (options : SearchOptions) :
    (searchVectors vectors queryEmbedding options).length ≤ effectiveLimit options.limit ∧
    List.Pairwise (fun a b : SearchResult => b.similarity ≤ a.similarity)
      (searchVectors vectors queryEmbedding options) ∧
    List.Pairwise tagRel (rankedTagged vectors queryEmbedding options) ∧
    (rankedTagged vectors queryEmbedding options).Perm
      (scoredFiltered vectors queryEmbedding options).enum ∧
    searchVectors vectors queryEmbedding options =
      ((rankedTagged vectors queryEmbedding options).take (effectiveLimit options.limit)).map
        (fun t => { chunk := t.2.1.chunk, similarity := t.2.2 }) ∧
    (∀ r ∈ searchVectors vectors queryEmbedding options,
      -1 ≤ r.similarity ∧ r.similarity ≤ 1) :=
  ⟨searchVectors_length_le vectors queryEmbedding options,
    searchVectors_sorted vectors queryEmbedding options,
    rankedTagged_sorted vectors queryEmbedding options,
    rankedTagged_perm vectors queryEmbedding options,
    rfl,
    fun r hr => by
      rcases searchVectors_mem_similarity vectors queryEmbedding options hr with ⟨sv, _, hs⟩
      rw [hs]
      exact cosineSimilarity_bounds queryEmbedding sv.embedding⟩

theorem cosine_one_neg_one : cosineSimilarity [(1 : ℝ)] [(-1 : ℝ)] = -1 := by
  unfold cosineSimilarity
  rw [if_neg (by simp)]
  have h1 : sumSq [(1 : ℝ)] = 1 := by norm_num [sumSq]
  have h2 : sumSq [(-1 : ℝ)] = 1 := by norm_num [sumSq]
  rw [h1, h2, Real.sqrt_one, if_pos (by norm_num)]
  norm_num

/-- C2 counterexample: searching the store holding the single vector
`[-1]` with query embedding `[1]` returns one result whose similarity is
`-1`, which is negative — the claim that every returned similarity lies
in `[0, 1]` is false. -/
theorem c2_counterexample :
    (searchVectors [cexStored] [(1 : ℝ)] noOptions).map (fun r => r.similarity) =
      [(-1 : ℝ)] ∧ ((-1 : ℝ) < 0) := by
  constructor
  · simp [searchVectors, rankedTagged, scoredFiltered, noOptions, cexStored,
      cosine_one_neg_one, List.insertionSort, List.orderedInsert, effectiveLimit]
  · norm_num

theorem searchVectors_single_one :
    searchVectors [exStored1] [(1 : ℝ)] noOptions =
      [{ chunk := exChunk, similarity := 1 }] := by
  have hcos : cosineSimilarity [(1 : ℝ)] [(1 : ℝ)] = 1 :=
    cosineSimilarity_self (v := [(1 : ℝ)]) (by norm_num [sumSq])
  simp [searchVectors, rankedTagged, scoredFiltered, noOptions, exStored1, hcos,
    List.insertionSort, List.orderedInsert, effectiveLimit]

/-- C2 witness: on the concrete single-vector store with embedding `[1]`
and query `[1]`, the returned result is in the output and its similarity
obeys the proved bounds. -/
theorem c2_witness :
    ({ chunk := exChunk, similarity := 1 } : SearchResult) ∈
      searchVectors [exStored1] [(1 : ℝ)] noOptions ∧
    -1 ≤ ({ chunk := exChunk, similarity := 1 } : SearchResult).similarity ∧
    ({ chunk := exChunk, similarity := 1 } : SearchResult).similarity ≤ 1 := by
  have hmem : ({ chunk := exChunk, similarity := 1 } : SearchResult) ∈
      searchVectors [exStored1] [(1 : ℝ)] noOptions := by
    rw [searchVectors_single_one]; exact List.mem_singleton.mpr rfl
  exact ⟨hmem, (c2_search_contract [exStored1] [(1 : ℝ)] noOptions).2.2.2.2.2 _ hmem⟩

/-- C10 (confirmed): a `limit` of `none` (absent) or `0` (falsy) is
replaced by the default 10 — the search behaves exactly as with
`limit = 10`, so at most 10 results are returned and requesting zero
results through the limit option is impossible. -/
theorem c10_falsy_limit (vectors : List StoredVector) (queryEmbedding : List ℝ)
    (lang folder : Option String) :
    searchVectors vectors queryEmbedding ⟨lang, folder, none⟩ =
      searchVectors vectors queryEmbedding ⟨lang, folder, some 10⟩ ∧
    searchVectors vectors queryEmbedding ⟨lang, folder, some 0⟩ =
      searchVectors vectors queryEmbedding ⟨lang, folder, some 10⟩ ∧
    (searchVectors vectors queryEmbedding ⟨lang, folder, some 0⟩).length ≤ 10 := by
  refine ⟨rfl, rfl, ?_⟩
  have h := searchVectors_length_le vectors queryEmbedding ⟨lang, folder, some 0⟩
  simpa [effectiveLimit] using h

/-! ### Offline embedding (C8) -/

theorem sumSq_replicate_zero {α : Type} [LinearOrderedField α] (n : Nat) :
    sumSq (List.replicate n (0 : α)) = 0 := by
  induction n with
  | zero => simp [sumSq]
  | succ n ih => rw [List.replicate_succ, sumSq_cons, ih]; ring

theorem getD_replicate_zero : ∀ (n p : Nat), (List.replicate n (0 : ℚ)).getD p 0 = 0 := by
  intro n
  induction n with
  | zero => intro p; simp
  | succ n ih =>
    intro p
    cases p with
    | zero => simp [List.replicate_succ]
    | succ q => simpa [List.replicate_succ] using ih q

theorem sumSq_set_replicate :
    ∀ (n p : Nat) (w : ℚ), p < n →
      sumSq ((List.replicate n (0 : ℚ)).set p w) = w * w := by
  intro n
  induction n with
  | zero => intro p w h; omega
  | succ n ih =>
    intro p w h
    cases p with
    | zero =>
      rw [List.replicate_succ, List.set_cons_zero, sumSq_cons, sumSq_replicate_zero]
      ring
    | succ q =>
      rw [List.replicate_succ, List.set_cons_succ, sumSq_cons, ih q w (by omega)]
      ring

theorem accumulate_length (l : List (Nat × List Char)) :
    ∀ acc : List ℚ, (l.foldl accumulateToken acc).length = acc.length := by
  induction l with
  | nil => intro acc; rfl
  | cons iw l ih =>
    intro acc
    rw [List.foldl_cons, ih]
    simp [accumulateToken]

theorem rawEmbedding_length (text : String) : (rawEmbedding text).length = embeddingDim := by
  rw [rawEmbedding, accumulate_length]
  exact List.length_replicate _ _

theorem sumSq_map_div (l : List ℝ) (c : ℝ) :
    sumSq (l.map (fun x => x / c)) = sumSq l / (c * c) := by
  induction l with
  | nil => simp [sumSq]
  | cons x l ih =>
    rw [List.map_cons, sumSq_cons, sumSq_cons, ih, div_mul_div_comm, div_add_div_same]

theorem sumSq_map_cast (l : List ℚ) :
    sumSq (l.map (fun q => (Rat.cast q : ℝ))) = ((sumSq l : ℚ) : ℝ) := by
  induction l with
  | nil => simp [sumSq]
  | cons x l ih => rw [List.map_cons, sumSq_cons, sumSq_cons, ih]; push_cast; ring

/-- C8 (confirmed): the offline embedding always has exactly 384 entries;
when the accumulated magnitude is zero the all-zeros vector is returned
unnormalized, and otherwise the result is L2-normalized — its sum of
squares, and hence its L2 norm, is exactly 1.  (The tokenization,
position weights `1/(1+0.1·idx)` and `hash(token) mod 384` bucketing are
the definitions `tokenize`, `positionWeight`, `simpleHash` and
`accumulateToken` above, modelled line by line from the source.) -/
theorem c8_offline_embedding (text : String) :
    (createSimpleEmbedding text).length = embeddingDim ∧
    (sumSq (rawEmbedding text) = 0 →
      createSimpleEmbedding text = List.replicate embeddingDim (0 : ℝ)) ∧
    (sumSq (rawEmbedding text) ≠ 0 →
      sumSq (createSimpleEmbedding text) = 1 ∧
      Real.sqrt (sumSq (createSimpleEmbedding text)) = 1) := by
  refine ⟨?_, ?_, ?_⟩
  · rw [createSimpleEmbedding]
    split <;> rw [List.length_map, rawEmbedding_length]
  · intro h
    rw [createSimpleEmbedding, if_neg (by rw [h]; exact lt_irrefl 0)]
    have hrep : rawEmbedding text = List.replicate embeddingDim (0 : ℚ) :=
      List.eq_replicate.mpr ⟨rawEmbedding_length text, sumSq_eq_zero h⟩
    rw [hrep, List.map_replicate, Rat.cast_zero]
  · intro h
    have hpos : 0 < sumSq (rawEmbedding text) :=
      lt_of_le_of_ne (sumSq_nonneg _) (Ne.symm h)
    have hposR : (0 : ℝ) < ((sumSq (rawEmbedding text) : ℚ) : ℝ) := by
      exact_mod_cast hpos
    have hmain : sumSq (createSimpleEmbedding text) = 1 := by
      rw [createSimpleEmbedding, if_pos hpos]
      have hcomp : (rawEmbedding text).map
          (fun v => (Rat.cast v : ℝ) / Real.sqrt (Rat.cast (sumSq (rawEmbedding text)))) =
          ((rawEmbedding text).map (fun q => (Rat.cast q : ℝ))).map
            (fun x => x / Real.sqrt ((sumSq (rawEmbedding text) : ℚ) : ℝ)) := by
        rw [List.map_map]; rfl
      rw [hcomp, sumSq_map_div, sumSq_map_cast,
        Real.mul_self_sqrt (le_of_lt hposR)]
      exact div_self (ne_of_gt hposR)
    exact ⟨hmain, by rw [hmain]; exact Real.sqrt_one⟩

set_option maxRecDepth 8192 in
/-- C8 witness: the empty text accumulates nothing and returns the
all-zeros 384-vector unnormalized; the text `"hello"` has positive
magnitude and its embedding has sum of squares exactly 1. -/
theorem c8_witness :
    sumSq (rawEmbedding "") = 0 ∧
    createSimpleEmbedding "" = List.replicate embeddingDim (0 : ℝ) ∧
    sumSq (rawEmbedding "hello") ≠ 0 ∧
    sumSq (createSimpleEmbedding "hello") = 1 := by
  have hz : sumSq (rawEmbedding "") = 0 := by
    have hrep : rawEmbedding "" = List.replicate embeddingDim 0 := rfl
    rw [hrep]
    exact sumSq_replicate_zero _
  have hh : sumSq (rawEmbedding "hello") = 1 := by
    have h2 : rawEmbedding "hello" =
        accumulateToken (List.replicate embeddingDim 0) (0, ['h', 'e', 'l', 'l', 'o']) := rfl
    rw [h2]
    simp only [accumulateToken, getD_replicate_zero]
    rw [sumSq_set_replicate _ _ _ (Nat.mod_lt _ (by norm_num [embeddingDim]))]
    norm_num [positionWeight]
  exact ⟨hz, (c8_offline_embedding "").2.1 hz,
    by rw [hh]; exact one_ne_zero,
    ((c8_offline_embedding "hello").2.2 (by rw [hh]; exact one_ne_zero)).1⟩

/-! ### Indexing (C6) -/

theorem indexFold_spec (embed : String → Except String (List ℝ)) (cs : List Chunk) :
    ∀ acc : IndexAcc,
      (cs.foldl (indexChunkStep embed) acc).vectors =
        acc.vectors ++ cs.filterMap (fun c =>
          match embed c.content with
          | .ok e => some ({ chunk := c, embedding := e } : StoredVector)
          | .error _ => none) ∧
      (cs.foldl (indexChunkStep embed) acc).embedCalls =
        acc.embedCalls ++ cs.map (·.content) ∧
      (cs.foldl (indexChunkStep embed) acc).errors =
        acc.errors + cs.countP (fun c => !(embedOk embed c)) ∧
      (acc.warnings.length = min acc.errors 3 →
        (cs.foldl (indexChunkStep embed) acc).warnings.length =
          min (cs.foldl (indexChunkStep embed) acc).errors 3) := by
  induction cs with
  | nil => intro acc; simp
  | cons c cs ih =>
    intro acc
    rw [List.foldl_cons]
    rcases ih (indexChunkStep embed acc c) with ⟨ihv, ihc, ihe, ihw⟩
    refine ⟨?_, ?_, ?_, ?_⟩
    · rw [ihv]
      cases h : embed c.content <;>
        simp [indexChunkStep, h, List.filterMap_cons]
    · rw [ihc]
      cases h : embed c.content <;> simp [indexChunkStep, h]
    · rw [ihe]
      cases h : embed c.content <;>
        simp [indexChunkStep, h, List.countP_cons, embedOk] <;> omega
    · intro hw
      refine ihw ?_
      cases h : embed c.content with
      | ok e => simpa [indexChunkStep, h] using hw
      | error msg =>
        by_cases h3 : acc.errors + 1 ≤ 3 <;>
          simp [indexChunkStep, h, h3, List.length_append] <;> omega

theorem nestedFold_eq (embed : String → Except String (List ℝ)) (files : List ParsedFile) :
    ∀ acc : IndexAcc,
      files.foldl (fun acc file => (chunkContent file).foldl (indexChunkStep embed) acc) acc =
        ((files.map chunkContent).flatten).foldl (indexChunkStep embed) acc := by
  induction files with
  | nil => intro acc; rfl
  | cons f files ih =>
    intro acc
    rw [List.foldl_cons, List.map_cons, List.flatten_cons, List.foldl_append, ih]

theorem indexAccOf_eq (embed : String → Except String (List ℝ)) (files : List ParsedFile) :
    indexAccOf files embed =
      ((files.map chunkContent).flatten).foldl (indexChunkStep embed) ({} : IndexAcc) :=
  nestedFold_eq embed files ({} : IndexAcc)

theorem length_filterMap_embed (embed : String → Except String (List ℝ)) (cs : List Chunk) :
    (cs.filterMap (fun c =>
      match embed c.content with
      | .ok e => some ({ chunk := c, embedding := e } : StoredVector)
      | .error _ => none)).length = cs.countP (fun c => embedOk embed c) := by
  induction cs with
  | nil => rfl
  | cons c cs ih =>
    cases h : embed c.content <;>
      simp [List.filterMap_cons, List.countP_cons, embedOk, h, ih]

/-- C6 (confirmed): `indexProject` is a total function of the file list
and the per-chunk embedding outcomes — no per-chunk failure reaches the
caller.  Every chunk of every file is passed to the embedder exactly once
in order (no retry: the call trace is exactly the chunk contents), a
failed chunk is simply omitted, the number of individually logged
warnings is `min(errors, 3)` (only the first 3 failures are logged
individually), and the returned stats report the reduced embedded-chunk
count `totalChunks = #{chunks whose embedding succeeded}`. -/
theorem c6_index_failure_tolerance (files : List ParsedFile)
    (embed : String → Except String (List ℝ)) :
    (indexProject files embed).embedCalls =
      ((files.map chunkContent).flatten).map (·.content) ∧
    (indexProject files embed).stats.totalChunks =
      ((files.map chunkContent).flatten).countP (fun c => embedOk embed c) ∧
    (indexProject files embed).store.vectors.length =
      (indexProject files embed).stats.totalChunks ∧
    (indexProject files embed).errors =
      ((files.map chunkContent).flatten).countP (fun c => !(embedOk embed c)) ∧
    (indexProject files embed).warnings.length = min (indexProject files embed).errors 3 ∧
    (indexProject files embed).stats.totalFiles = files.length := by
  have hfold := indexFold_spec embed ((files.map chunkContent).flatten) ({} : IndexAcc)
  rcases hfold with ⟨hv, hc, he, hw⟩
  have hnest := indexAccOf_eq embed files
  refine ⟨?_, ?_, rfl, ?_, ?_, rfl⟩
  · show (indexAccOf files embed).embedCalls =
      ((files.map chunkContent).flatten).map (·.content)
    rw [hnest, hc]; rfl
  · show (indexAccOf files embed).vectors.length =
      ((files.map chunkContent).flatten).countP (fun c => embedOk embed c)
    rw [hnest, hv, show ({} : IndexAcc).vectors = [] from rfl, List.nil_append]
    exact length_filterMap_embed embed _
  · show (indexAccOf files embed).errors =
      ((files.map chunkContent).flatten).countP (fun c => !(embedOk embed c))
    rw [hnest, he]
    simp
  · show (indexAccOf files embed).warnings.length = min (indexAccOf files embed).errors 3
    rw [hnest]
    exact hw rfl

/-! ### Provider fallback semantics (C3, C4) -/

/-- C3 counterexample: with the OpenAI provider active, a network failure
during `createEmbedding` is rethrown to the caller — it does **not**
degrade to the offline scheme, contradicting the claim for "every active
provider". -/
theorem c3_counterexample :
    createEmbedding "openai" (.fail "network down") "hello" = .error "network down" := rfl

/-- C3 (corrected): only the Ollama embedding path degrades gracefully to
the deterministic offline scheme on network failure.  The OpenAI path
rethrows the error to the caller of `createEmbedding`: at query time it
propagates out of `searchCode`, while at index time `indexProject`
absorbs it per chunk (indexing completes, with zero embedded chunks when
every call fails).  Groq/demo (and unknown) providers make no network
embedding call at all. -/
theorem c3_embedding_failure_semantics :
    (∀ text msg, createEmbedding "ollama" (.fail msg) text =
      .ok (createSimpleEmbedding text)) ∧
    (∀ text msg, createEmbedding "openai" (.fail msg) text = .error msg) ∧
    (∀ (store : Store) (rest : VectorStores) (pid q : String) (opts : SearchOptions) (msg : String),
      searchCode ((pid, store) :: rest) pid q opts "openai" (.fail msg) = .error msg) ∧
    (∀ (files : List ParsedFile) (msg : String),
      (indexProject files (fun t => createEmbedding "openai" (.fail msg) t)).stats.totalChunks
        = 0 ∧
      (indexProject files (fun t => createEmbedding "openai" (.fail msg) t)).stats.totalFiles
        = files.length) := by
  refine ⟨fun text msg => rfl, fun text msg => rfl, ?_, ?_⟩
  · intro store rest pid q opts msg
    simp [searchCode, lookupStore, List.find?, createEmbedding, createOpenAIEmbedding]
  · intro files msg
    constructor
    · have h := indexFold_spec (fun t => createEmbedding "openai" (.fail msg) t)
        ((files.map chunkContent).flatten) ({} : IndexAcc)
      have hnest := indexAccOf_eq (fun t => createEmbedding "openai" (.fail msg) t) files
      show (indexAccOf files (fun t => createEmbedding "openai" (.fail msg) t)).vectors.length
        = 0
      rw [hnest, h.1, show ({} : IndexAcc).vectors = [] from rfl, List.nil_append,
        length_filterMap_embed]
      have hfalse : ∀ c : Chunk,
          embedOk (fun t => createEmbedding "openai" (.fail msg) t) c = false :=
        fun c => rfl
      exact List.countP_eq_zero.mpr (fun c _ => by simp [hfalse])
    · rfl

/-- C4 (confirmed): any provider key outside the four recognized literals
falls into the `default` arm of both switches: embedding resolves to the
deterministic offline hash embedding and completion to the demo template
— neither operation fails. -/
theorem c4_unrecognized_provider_fallback (provider : String)
    (h : provider ∉ AI_PROVIDERS) :
    (∀ (net : NetResponse (List ℝ)) (text : String),
      createEmbedding provider net text = .ok (createSimpleEmbedding text)) ∧
    (∀ (net : NetResponse String) (systemPrompt userPrompt : String),
      generateCompletion provider net systemPrompt userPrompt =
        .ok (generateDemoCompletion userPrompt)) := by
  have h1 : provider ≠ "openai" := fun he => h (by rw [he]; simp [AI_PROVIDERS])
  have h2 : provider ≠ "ollama" := fun he => h (by rw [he]; simp [AI_PROVIDERS])
  have h3 : provider ≠ "groq" := fun he => h (by rw [he]; simp [AI_PROVIDERS])
  have h4 : provider ≠ "demo" := fun he => h (by rw [he]; simp [AI_PROVIDERS])
  constructor
  · intro net text
    simp [createEmbedding, h1, h2, h3, h4]
  · intro net systemPrompt userPrompt
    simp [generateCompletion, h1, h2, h3, h4]

/-- C4 witness: the unrecognized key `"mystery"` resolves to the offline
embedding and the demo completion even when the network is down. -/
theorem c4_witness :
    ("mystery" ∉ AI_PROVIDERS) ∧
    createEmbedding "mystery" (.fail "down") "txt" = .ok (createSimpleEmbedding "txt") ∧
    generateCompletion "mystery" (.fail "down") "sys" "usr" =
      .ok (generateDemoCompletion "usr") :=
  ⟨by decide,
    (c4_unrecognized_provider_fallback "mystery" (by decide)).1 (.fail "down") "txt",
    (c4_unrecognized_provider_fallback "mystery" (by decide)).2 (.fail "down") "sys" "usr"⟩

/-! ### Lookup failures (C9) -/

theorem lookup_delete (stores : VectorStores) (pid : String) :
    lookupStore (deleteProject stores pid) pid = none := by
  induction stores with
  | nil => rfl
  | cons e rest ih =>
    by_cases h : e.1 = pid
    · simpa [deleteProject, List.filter_cons, h] using ih
    · simpa [deleteProject, lookupStore, List.filter_cons, List.find?_cons, h] using ih

/-- C9 (confirmed): `searchCode` on an unindexed id — in particular on
any id just removed by `deleteProject` — fails with the `ProjectNotFound`
error before the query is embedded (the error is the same for every
provider and every network outcome, so no provider call can have been
involved); and `explainFile` on a path absent from the file list of an
existing project fails with the `FileNotFound` error, likewise
independently of the completion provider behaviour. -/
theorem c9_lookup_failures :
    (∀ (stores : VectorStores) (pid q : String) (opts : SearchOptions) (provider : String)
      (net : NetResponse (List ℝ)), lookupStore stores pid = none →
        searchCode stores pid q opts provider net = .error (projectNotFoundMsg pid)) ∧
    (∀ (stores : VectorStores) (pid q : String) (opts : SearchOptions) (provider : String)
      (net : NetResponse (List ℝ)),
        searchCode (deleteProject stores pid) pid q opts provider net =
          .error (projectNotFoundMsg pid)) ∧
    (∀ (stores : VectorStores) (pid path provider : String) (net : NetResponse String)
      (store : Store), lookupStore stores pid = some store →
        store.files.find? (fun f => f.path == path) = none →
        explainFile stores pid path provider net = .error (fileNotFoundMsg path)) := by
  refine ⟨?_, ?_, ?_⟩
  · intro stores pid q opts provider net h
    simp [searchCode, h]
  · intro stores pid q opts provider net
    simp [searchCode, lookup_delete]
  · intro stores pid path provider net store h hfind
    simp [explainFile, getProjectFiles, h, hfind]

/-- C9 witness: the empty store map, a deleted project, and a missing
file path in a concrete one-file project all fail as described, even with
a failing network environment. -/
theorem c9_witness :
    lookupStore ([] : VectorStores) "p1" = none ∧
    searchCode [] "p1" "q" noOptions "demo" (.fail "down") =
      .error (projectNotFoundMsg "p1") ∧
    searchCode (deleteProject [("p1", exStoreWithFile)] "p1") "p1" "q" noOptions "demo"
      (.fail "down") = .error (projectNotFoundMsg "p1") ∧
    lookupStore [("p1", exStoreWithFile)] "p1" = some exStoreWithFile ∧
    exStoreWithFile.files.find? (fun f => f.path == "missing.js") = none ∧
    explainFile [("p1", exStoreWithFile)] "p1" "missing.js" "demo" (.fail "down") =
      .error (fileNotFoundMsg "missing.js") :=
  ⟨rfl,
    c9_lookup_failures.1 [] "p1" "q" noOptions "demo" (.fail "down") rfl,
    c9_lookup_failures.2.1 [("p1", exStoreWithFile)] "p1" "q" noOptions "demo" (.fail "down"),
    rfl, rfl,
    c9_lookup_failures.2.2 [("p1", exStoreWithFile)] "p1" "missing.js" "demo" (.fail "down")
      exStoreWithFile rfl rfl⟩

/-! ### Question answering (C5) -/

/-- C5 (corrected): when the search yields zero chunks, `answerQuestion`
returns the fixed low-confidence message with an empty reference list —
for every completion-network outcome, so no completion call is involved —
but that result object carries **no** `relevantFiles` and **no**
`provider` field (both read as `undefined` in JS), contrary to the claim
that every result contains them.  When the search yields chunks, the
result contains the generated answer, the formatted references, a
confidence label derived solely from the top chunk similarity
(`> 0.8 → high`, `> 0.6 → medium`, else `low`), the deduplicated
relevant-file list and the display name of the active provider; a completion
failure propagates as `Failed to generate answer: <msg>`. -/
theorem c5_answer_contract (stores : VectorStores) (projectId question : String)
    (options : SearchOptions) (provider : String) (embedNet : NetResponse (List ℝ)) :
    (∀ completionNet : NetResponse String,
      searchCode stores projectId question { options with limit := some 8 } provider embedNet =
        .ok [] →
      answerQuestion stores projectId question options provider embedNet completionNet =
        .ok noResultsResult) ∧
    (noResultsResult.answer = noResultsAnswer ∧ noResultsResult.references = [] ∧
      noResultsResult.confidence = "low" ∧ noResultsResult.relevantFiles = none ∧
      noResultsResult.provider = none) ∧
    (∀ (completionNet : NetResponse String) (top : SearchResult) (rest : List SearchResult),
      searchCode stores projectId question { options with limit := some 8 } provider embedNet =
        .ok (top :: rest) →
      (∀ msg, generateAnswer provider completionNet question (buildContext (top :: rest)) =
          .error msg →
        answerQuestion stores projectId question options provider embedNet completionNet =
          .error msg) ∧
      (∀ ans, generateAnswer provider completionNet question (buildContext (top :: rest)) =
          .ok ans →
        answerQuestion stores projectId question options provider embedNet completionNet =
          .ok { answer := ans
                references := formatReferences (top :: rest)
                confidence :=
                  if top.similarity > 0.8 then "high"
                  else if top.similarity > 0.6 then "medium"
                  else "low"
                relevantFiles := some (dedupFirst ((top :: rest).map (·.chunk.path)))
                provider := providerName provider })) := by
  refine ⟨?_, ⟨rfl, rfl, rfl, rfl, rfl⟩, ?_⟩
  · intro completionNet hsearch
    simp [answerQuestion, hsearch]
  · intro completionNet top rest hsearch
    constructor
    · intro msg hgen
      simp [answerQuestion, hsearch, hgen]
    · intro ans hgen
      simp [answerQuestion, hsearch, hgen]

theorem searchCode_empty_store :
    searchCode [("p1", emptyStore)] "p1" "hi" { noOptions with limit := some 8 } "demo"
      (.ok []) = .ok [] := by
  simp [searchCode, lookupStore, List.find?, createEmbedding, searchVectors, rankedTagged,
    scoredFiltered, emptyStore, noOptions, List.insertionSort]

/-- C5 witness: on a concrete indexed project with no vectors, the search
returns zero chunks and `answerQuestion` returns the fixed no-results
response even though the completion network is down. -/
theorem c5_witness :
    searchCode [("p1", emptyStore)] "p1" "hi" { noOptions with limit := some 8 } "demo"
      (.ok []) = .ok [] ∧
    answerQuestion [("p1", emptyStore)] "p1" "hi" noOptions "demo" (.ok []) (.fail "down") =
      .ok noResultsResult :=
  ⟨searchCode_empty_store,
    (c5_answer_contract [("p1", emptyStore)] "p1" "hi" noOptions "demo" (.ok [])).1
      (.fail "down") searchCode_empty_store⟩

/-- C5 counterexample: the concrete no-results response — which
`answerQuestion` returns for an indexed project with no vectors — has no
`relevantFiles` and no `provider` field, so the claim that **every**
result of `answer` contains a relevantFiles list and the active
provider name is false. -/
theorem c5_counterexample :
    answerQuestion [("p1", emptyStore)] "p1" "hi" noOptions "demo" (.ok []) (.fail "down") =
      .ok noResultsResult ∧
    noResultsResult.relevantFiles = none ∧
    noResultsResult.provider = none := by
  refine ⟨?_, rfl, rfl⟩
  have hsearch : searchCode [("p1", emptyStore)] "p1" "hi" { noOptions with limit := some 8 }
      "demo" (.ok []) = .ok [] := by
    simp [searchCode, lookupStore, List.find?, createEmbedding, searchVectors, rankedTagged,
      scoredFiltered, emptyStore, noOptions, List.insertionSort]
  simp [answerQuestion, hsearch]

end CodeQA
